import Mathlib

/-!
Verification of the agent-orchestration core of the `agentic-recruitment-system`
repository (Python source under `src/backend/src/`).

Shallow embedding conventions:
* Python `float` values are embedded as `ℚ` (the code only does comparisons,
  sums and max/min on literals such as 0.7, 0.3, 0.15, 0.05, 0.1).
* Python exceptions are embedded as `Except String`; a function that cannot
  raise is total.
* Wall-clock data (timestamps, durations, uuids) is outside the embedding:
  audit-trail entries are modelled as the step text without the timestamp
  prefix, `duration_ms`/`timestamp`/`agent_id` fields are dropped, and
  generated uuids are modelled as `""`.
* Python dicts holding dataclass serializations (`to_dict`) are modelled by
  the structured values themselves; an absent dict key is `Option.none`.
* Numeric formatting inside informational strings (for example
  `f"{x:.2f}"`) is abstracted: numbers are rendered with `toString` or
  elided, as noted at each definition.  No claim below inspects such text.
-/

/-- Python substring test `pat in s` (`str.__contains__`). -/
def py_in (pat s : String) : Bool := decide (List.IsInfix pat.toList s.toList)

/-- Python `str` of a list of strings, e.g. `str(["a"]) = "['a']"`
(element quoting with `'`; character escaping inside elements is not
modelled, no embedded flag string needs it). -/
def py_str_list (l : List String) : String :=
  "[" ++ String.intercalate ", " (l.map (fun s => "\x27" ++ s ++ "\x27")) ++ "]"

/-! ## `agents/base.py`: the agent execution contract -/

/-- Embedding of `AgentStatus` (base.py, lines 19-25). -/
inductive AgentStatus where
  | pending
  | running
  | success
  | failed
  | blocked
deriving DecidableEq

/-- Embedding of the `AgentResponse` dataclass (base.py, lines 28-58).
`agent_id`, `timestamp` and `duration_ms` (wall-clock/uuid data) are outside
the embedding. -/
structure AgentResponse (α : Type) where
  agent_type : String
  status : AgentStatus
  data : Option α
  confidence : ℚ
  explanation : String
  audit_trail : List String
  errors : List String
  warnings : List String
  requires_human_review : Bool

/-- Embedding of `BaseAgent.required_confidence_threshold` (base.py, line
108-114): the default confidence threshold 0.7. -/
def BaseAgent.required_confidence_threshold : ℚ := 7/10

/-- Embedding of `ResumeParserAgent.required_confidence_threshold`
(resume_parser.py, lines 48-50). -/
def ResumeParserAgent.required_confidence_threshold : ℚ := 6/10

/-- Embedding of `BiasAuditorAgent.required_confidence_threshold`
(bias_auditor.py, lines 63-65). -/
def BiasAuditorAgent.required_confidence_threshold : ℚ := 9/10

/-- Embedding of `BaseAgent.run` (base.py, lines 121-177).  The wrapped
domain logic `_process` is a parameter: it either returns
`(output_data, confidence, explanation)` or raises (`Except.error`).
Audit-trail entries keep the step text of `log_reasoning` without the
timestamp prefix; the numeric parts of the two informational steps
(`"Confidence {c:.2f} below threshold …"`, `"Completed successfully in
{d:.2f}ms"`) are elided since they render wall-clock/confidence numbers. -/
def BaseAgent.run {α β : Type} (agent_type : String) (threshold : ℚ)
    (process : α → Except String (β × ℚ × String)) (input_data : α) :
    AgentResponse β :=
  let trail0 := ["Starting " ++ agent_type ++ " with input"]
  match process input_data with
  | Except.ok (output_data, confidence, explanation) =>
      let needs_review : Bool := decide (confidence < threshold)
      let trail1 := if needs_review then
          trail0 ++ ["Confidence below threshold - flagging for human review"]
        else trail0
      { agent_type := agent_type
        status := AgentStatus.success
        data := some output_data
        confidence := confidence
        explanation := explanation
        audit_trail := trail1 ++ ["Completed successfully"]
        errors := []
        warnings := []
        requires_human_review := needs_review }
  | Except.error e =>
      { agent_type := agent_type
        status := AgentStatus.failed
        data := none
        confidence := 0
        explanation := "Agent failed: " ++ e
        audit_trail := trail0 ++ ["Failed with error: " ++ e]
        errors := [e]
        warnings := []
        requires_human_review := true }

/-- C3: if the domain logic raises, `run` catches it and returns a `Failed`
response with confidence 0, no data, the error text recorded as a reasoning
step and in `errors`, `requires_human_review = true` and a synthesized
failure explanation; the exception never propagates (`run` is total). -/
theorem BaseAgent.run_contains_domain_failure {α β : Type}
    (agent_type : String) (threshold : ℚ)
    (process : α → Except String (β × ℚ × String)) (input_data : α)
    (e : String) (h : process input_data = Except.error e) :
    (BaseAgent.run agent_type threshold process input_data).status = AgentStatus.failed ∧
    (BaseAgent.run agent_type threshold process input_data).confidence = 0 ∧
    (BaseAgent.run agent_type threshold process input_data).data = none ∧
    e ∈ (BaseAgent.run agent_type threshold process input_data).errors ∧
    ("Failed with error: " ++ e) ∈
      (BaseAgent.run agent_type threshold process input_data).audit_trail ∧
    (BaseAgent.run agent_type threshold process input_data).requires_human_review = true ∧
    (BaseAgent.run agent_type threshold process input_data).explanation =
      "Agent failed: " ++ e := by
  simp [BaseAgent.run, h]

/-- Witness for C3 at a concrete always-raising domain logic. -/
theorem BaseAgent.run_contains_domain_failure_witness :
    (BaseAgent.run "DemoAgent" (7/10)
        (fun (_ : Unit) => (Except.error "boom" : Except String (Unit × ℚ × String)))
        ()).status = AgentStatus.failed ∧
    (BaseAgent.run "DemoAgent" (7/10)
        (fun (_ : Unit) => (Except.error "boom" : Except String (Unit × ℚ × String)))
        ()).confidence = 0 ∧
    (BaseAgent.run "DemoAgent" (7/10)
        (fun (_ : Unit) => (Except.error "boom" : Except String (Unit × ℚ × String)))
        ()).data = none ∧
    "boom" ∈ (BaseAgent.run "DemoAgent" (7/10)
        (fun (_ : Unit) => (Except.error "boom" : Except String (Unit × ℚ × String)))
        ()).errors ∧
    ("Failed with error: " ++ "boom") ∈ (BaseAgent.run "DemoAgent" (7/10)
        (fun (_ : Unit) => (Except.error "boom" : Except String (Unit × ℚ × String)))
        ()).audit_trail ∧
    (BaseAgent.run "DemoAgent" (7/10)
        (fun (_ : Unit) => (Except.error "boom" : Except String (Unit × ℚ × String)))
        ()).requires_human_review = true ∧
    (BaseAgent.run "DemoAgent" (7/10)
        (fun (_ : Unit) => (Except.error "boom" : Except String (Unit × ℚ × String)))
        ()).explanation = "Agent failed: " ++ "boom" :=
  BaseAgent.run_contains_domain_failure "DemoAgent" (7/10) _ () "boom" rfl

/-- C4: every response produced by `run` has
`requires_human_review = true` iff its reported confidence is strictly below
the configured threshold or its status is `Failed`; and the configured
thresholds are 0.7 by default, 0.9 for the bias auditor, 0.6 for the resume
parser. -/
theorem BaseAgent.run_review_iff_low_confidence_or_failed {α β : Type}
    (agent_type : String) (threshold : ℚ)
    (process : α → Except String (β × ℚ × String)) (input_data : α) :
    ((BaseAgent.run agent_type threshold process input_data).requires_human_review = true ↔
      ((BaseAgent.run agent_type threshold process input_data).confidence < threshold ∨
       (BaseAgent.run agent_type threshold process input_data).status = AgentStatus.failed)) ∧
    BaseAgent.required_confidence_threshold = 7/10 ∧
    BiasAuditorAgent.required_confidence_threshold = 9/10 ∧
    ResumeParserAgent.required_confidence_threshold = 6/10 := by
  refine ⟨?_, rfl, rfl, rfl⟩
  cases h : process input_data with
  | ok v => simp [BaseAgent.run, h]
  | error e => simp [BaseAgent.run, h]

/-- C5: every response produced by `run` satisfies the outcome-shape
invariant: `Success` implies the payload is set and `errors` is empty;
`Failed` implies the payload is unset, `errors` is non-empty, and the
confidence is 0. -/
theorem BaseAgent.run_outcome_shape {α β : Type}
    (agent_type : String) (threshold : ℚ)
    (process : α → Except String (β × ℚ × String)) (input_data : α) :
    ((BaseAgent.run agent_type threshold process input_data).status = AgentStatus.success →
      (BaseAgent.run agent_type threshold process input_data).data.isSome = true ∧
      (BaseAgent.run agent_type threshold process input_data).errors = []) ∧
    ((BaseAgent.run agent_type threshold process input_data).status = AgentStatus.failed →
      (BaseAgent.run agent_type threshold process input_data).data = none ∧
      (BaseAgent.run agent_type threshold process input_data).errors ≠ [] ∧
      (BaseAgent.run agent_type threshold process input_data).confidence = 0) := by
  cases h : process input_data with
  | ok v => simp [BaseAgent.run, h]
  | error e => simp [BaseAgent.run, h]

/-- Witness for C5: both implications discharged at concrete domain logic
(one succeeding invocation, one raising invocation). -/
theorem BaseAgent.run_outcome_shape_witness :
    ((BaseAgent.run "DemoAgent" (7/10)
        (fun (_ : Unit) => (Except.ok ((), 9/10, "ok") : Except String (Unit × ℚ × String)))
        ()).data.isSome = true ∧
     (BaseAgent.run "DemoAgent" (7/10)
        (fun (_ : Unit) => (Except.ok ((), 9/10, "ok") : Except String (Unit × ℚ × String)))
        ()).errors = []) ∧
    ((BaseAgent.run "DemoAgent" (7/10)
        (fun (_ : Unit) => (Except.error "down" : Except String (Unit × ℚ × String)))
        ()).data = none ∧
     (BaseAgent.run "DemoAgent" (7/10)
        (fun (_ : Unit) => (Except.error "down" : Except String (Unit × ℚ × String)))
        ()).errors ≠ [] ∧
     (BaseAgent.run "DemoAgent" (7/10)
        (fun (_ : Unit) => (Except.error "down" : Except String (Unit × ℚ × String)))
        ()).confidence = 0) :=
  ⟨(BaseAgent.run_outcome_shape "DemoAgent" (7/10)
      (fun _ => Except.ok ((), 9/10, "ok")) ()).1 (by decide),
   (BaseAgent.run_outcome_shape "DemoAgent" (7/10)
      (fun _ => Except.error "down") ()).2 (by decide)⟩

/-! ## Data model shared by the orchestrator and the bias auditor

`schemas/messages.py` and `schemas/job.py` are not part of the available
source tree; the structures below that come from them are modelled from the
spec (§3, §4.2) and from how the available source constructs and reads them,
as noted per definition.  Structures from `schemas/candidates.py` are
embedded from that file directly. -/

/-- Modelled from the spec: `PipelineStage` (schemas/messages.py is not under
src/).  Spec §4.2 fixes the ordered stage sequence
`Initialized → JDAnalysis → ResumeParsing → Matching → Shortlisting →
TestGeneration → TestEvaluation → Ranking → BiasAudit → Completed` plus the
side states `Failed` and `AwaitingHumanReview`. -/
inductive PipelineStage where
  | initialized
  | jd_analysis
  | resume_parsing
  | matching
  | shortlisting
  | test_generation
  | test_evaluation
  | ranking
  | bias_audit
  | completed
  | failed
  | awaiting_human_review
deriving DecidableEq

/-- Modelled from the spec: the string `value` of each `PipelineStage` enum
member (schemas/messages.py is not under src/); snake_case renderings of the
stage names, used only inside log/error message text. -/
def PipelineStage.value : PipelineStage → String
  | .initialized => "initialized"
  | .jd_analysis => "jd_analysis"
  | .resume_parsing => "resume_parsing"
  | .matching => "matching"
  | .shortlisting => "shortlisting"
  | .test_generation => "test_generation"
  | .test_evaluation => "test_evaluation"
  | .ranking => "ranking"
  | .bias_audit => "bias_audit"
  | .completed => "completed"
  | .failed => "failed"
  | .awaiting_human_review => "awaiting_human_review"

/-- Position of a stage in the fixed forward order (all terminal states get
the index after `bias_audit`); used for the loop-termination measure. -/
def PipelineStage.idx : PipelineStage → Nat
  | .initialized => 0
  | .jd_analysis => 1
  | .resume_parsing => 2
  | .matching => 3
  | .shortlisting => 4
  | .test_generation => 5
  | .test_evaluation => 6
  | .ranking => 7
  | .bias_audit => 8
  | .completed => 9
  | .failed => 9
  | .awaiting_human_review => 9

/-- The three terminal stages of `run_pipeline`'s while-loop condition
(orchestrator.py, lines 138-142). -/
def PipelineStage.is_terminal : PipelineStage → Bool
  | .completed => true
  | .failed => true
  | .awaiting_human_review => true
  | _ => false

/-- Modelled from the spec: `JobDescription` (schemas/job.py is not under
src/).  Fields are the ones the available source reads: `job_id`, `title`,
`raw_description` (jd_analyzer.py), and the optional `shortlist_threshold`
entry of its dict form (orchestrator.py, line 275).  The dict form
`to_dict()` is abstracted to the structured value itself. -/
structure JobDescription where
  job_id : String
  title : String
  raw_description : String
  shortlist_threshold : Option ℚ
deriving DecidableEq

/-- Modelled from the spec: `ExperienceRequirement` (schemas/job.py is not
under src/); fields from its construction in jd_analyzer.py. -/
structure ExperienceRequirement where
  minimum_years : Nat
  preferred_years : Nat
deriving DecidableEq

/-- Modelled from the spec: `EducationRequirement` (schemas/job.py is not
under src/); fields from its construction in jd_analyzer.py. -/
structure EducationRequirement where
  minimum_degree : String
deriving DecidableEq

/-- Modelled from the spec: `ParsedJD` (schemas/job.py is not under src/).
Fields from its construction in jd_analyzer.py and the read of
`potential_bias_flags` in bias_auditor.py (line 87); the `skills`,
`key_responsibilities` and `technical_topics` lists are abstracted to
strings (always empty in the embedded code). -/
structure ParsedJD where
  job_id : String
  parsing_confidence : ℚ
  job_title_normalized : String
  seniority_level : String
  job_function : String
  skills : List String
  experience_requirements : ExperienceRequirement
  education_requirements : EducationRequirement
  key_responsibilities : List String
  technical_topics : List String
  difficulty_level : String
  jd_quality_score : ℚ
  potential_bias_flags : List String
  parsing_warnings : List String
deriving DecidableEq

/-- Embedding of `CandidateProfile` (schemas/candidates.py, lines 14-43);
the two datetime fields (`application_date`, `consent_timestamp`) are
wall-clock data outside the embedding. -/
structure CandidateProfile where
  candidate_id : String
  anonymized_id : String
  email_hash : String
  resume_file_path : String
  data_consent_given : Bool
deriving DecidableEq

/-- Embedding of `ParsedResume` (schemas/candidates.py, lines 105-148);
`parsing_timestamp` is outside the embedding and the `skills`, `experience`,
`education`, `projects` entry lists are abstracted away (the embedded
resume-parsing mock always leaves them empty and nothing reads them). -/
structure ParsedResume where
  candidate_id : String
  parsing_confidence : ℚ
  professional_summary : String
  certifications : List String
  total_experience_months : Nat
  unique_skills_count : Nat
  resume_quality_score : ℚ
  parsing_warnings : List String
deriving DecidableEq

/-- One entry of `PipelineState.candidates`: the dict snapshot of a
`CandidateProfile` (orchestrator.py, line 115) which the resume-parsing
stage may extend with a `"parsed_resume"` key (orchestrator.py, lines
250-253).  An absent key is `none`. -/
structure CandidateRecord where
  candidate_id : String
  anonymized_id : String
  email_hash : String
  resume_file_path : String
  data_consent_given : Bool
  parsed_resume : Option ParsedResume
deriving DecidableEq

/-- Embedding of `CandidateProfile.to_dict` (schemas/candidates.py, lines
32-43) as the snapshot taken by `create_pipeline`: no `"parsed_resume"` key
yet. -/
def CandidateProfile.to_record (c : CandidateProfile) : CandidateRecord :=
  { candidate_id := c.candidate_id
    anonymized_id := c.anonymized_id
    email_hash := c.email_hash
    resume_file_path := c.resume_file_path
    data_consent_given := c.data_consent_given
    parsed_resume := none }

/-- Embedding of `FinalRanking` (schemas/candidates.py, lines 301-330);
the `weights_used` dict is abstracted away (never read by the embedded
code). -/
structure FinalRanking where
  candidate_id : String
  job_id : String
  rank : Nat
  resume_match_score : ℚ
  test_score : ℚ
  final_composite_score : ℚ
  recommendation : String
  confidence : ℚ
  ranking_explanation : String
  key_strengths : List String
  key_concerns : List String
  bias_audit_passed : Bool
  human_review_required : Bool
  human_review_reason : String
deriving DecidableEq

/-- Embedding of `MatchResult` (schemas/candidates.py, lines 171-213); only
the identifying field is modelled — the embedded pipeline only ever assigns
the empty list to `PipelineState.match_results` (orchestrator.py, line
264). -/
structure MatchResult where
  candidate_id : String
deriving DecidableEq

/-- Embedding of `TestResult` (schemas/candidates.py, lines 255-285); only
the identifying field is modelled — the embedded pipeline only ever assigns
the empty list to `PipelineState.test_results` (orchestrator.py, line
307). -/
structure TestResult where
  candidate_id : String
deriving DecidableEq

/-- Modelled from the spec: `DecisionGate` (schemas/messages.py is not under
src/).  Fields from its construction in orchestrator.py (lines 278-284) and
the reads `g.get("bias_flags", [])`, `g.get("gate_id")` in bias_auditor.py
(lines 100-106); `gate_id` is a generated identifier (modelled as the
creating site leaves it, `""`). -/
structure DecisionGate where
  gate_id : String
  gate_name : String
  condition : String
  threshold : ℚ
  passed : Bool
  explanation : String
  bias_flags : List String
deriving DecidableEq

/-- A bias-audit finding: the dicts appended to `findings` in
bias_auditor.py `_process` (category / severity / description /
affected_candidates keys). -/
structure Finding where
  category : String
  severity : String
  description : String
  affected_candidates : List String ⊕ String
deriving DecidableEq

/-- The `"affected_candidates": "all"` marker value (bias_auditor.py,
line 93). -/
def affected_all : List String ⊕ String := Sum.inr "all"

/-- The `"affected_candidates": "all_ranked"` marker value
(bias_auditor.py, line 123). -/
def affected_all_ranked : List String ⊕ String := Sum.inr "all_ranked"

/-- Embedding of `BiasAuditResult` (bias_auditor.py, lines 25-33). -/
structure BiasAuditResult where
  audit_passed : Bool
  overall_fairness_score : ℚ
  findings : List Finding
  recommendations : List String
  requires_human_review : Bool
  compliance_notes : List String
deriving DecidableEq

/-- The mock dict assigned to `PipelineState.bias_audit_results` by the
orchestrator's `_run_bias_audit` (orchestrator.py, lines 329-333). -/
structure BiasAuditSummary where
  audit_passed : Bool
  fairness_score : ℚ
  findings : List Finding
deriving DecidableEq

/-- Erased payload of a recorded agent response: the `"data"` entry of the
dict stored by `PipelineState.add_agent_response` (the typed payloads the
embedded pipeline can produce). -/
inductive RespData where
  | jd (p : ParsedJD)
  | resume (r : ParsedResume)
  | audit (r : BiasAuditResult)
deriving DecidableEq

/-- The dict form of an `AgentResponse` stored in
`PipelineState.agent_responses` (`AgentResponse.to_dict`, base.py lines
60-75; wall-clock fields outside the embedding). -/
structure RecordedResponse where
  agent_type : String
  status : AgentStatus
  data : Option RespData
  confidence : ℚ
  explanation : String
  audit_trail : List String
  errors : List String
  warnings : List String
  requires_human_review : Bool
deriving DecidableEq

/-- Embedding of `AgentResponse.to_dict` (base.py, lines 60-75), with the
typed payload erased through `inj`. -/
def AgentResponse.to_record {β : Type} (inj : β → RespData) (r : AgentResponse β) :
    RecordedResponse :=
  { agent_type := r.agent_type
    status := r.status
    data := r.data.map inj
    confidence := r.confidence
    explanation := r.explanation
    audit_trail := r.audit_trail
    errors := r.errors
    warnings := r.warnings
    requires_human_review := r.requires_human_review }

/-- Modelled from the spec: `PipelineState` (schemas/messages.py is not
under src/).  Fields are those the available source assigns or reads
(orchestrator.py, bias_auditor.py) and the spec §3 lists; per spec §3 the
log fields start empty and `pipeline_id` is a generated identifier
(modelled as `""`). -/
structure PipelineState where
  pipeline_id : String
  job_id : String
  current_stage : PipelineStage
  job_description : JobDescription
  candidates : List CandidateRecord
  parsed_jd : Option ParsedJD
  match_results : List MatchResult
  shortlisted_candidates : List String
  test_questions : List String
  test_results : List TestResult
  final_rankings : List FinalRanking
  bias_audit_results : Option BiasAuditSummary
  decision_gates : List DecisionGate
  agent_responses : List RecordedResponse
  errors : List String
  warnings : List String
deriving DecidableEq

/-- Modelled from the spec: `PipelineState.add_agent_response`
(schemas/messages.py is not under src/); spec §3: `agent_outcomes` is an
append-only ordered log. -/
def PipelineState.add_agent_response (st : PipelineState) (r : RecordedResponse) :
    PipelineState :=
  { st with agent_responses := st.agent_responses ++ [r] }

/-- Modelled from the spec: `PipelineState.add_decision_gate`
(schemas/messages.py is not under src/); spec §3: `decision_gates` is an
append-only ordered log. -/
def PipelineState.add_decision_gate (st : PipelineState) (g : DecisionGate) :
    PipelineState :=
  { st with decision_gates := st.decision_gates ++ [g] }

/-! ## `agents/jd_analyzer.py` and `agents/resume_parser.py` -/

/-- Embedding of `JDAnalyzerAgent._check_for_bias` (jd_analyzer.py, lines
107-129). -/
def JDAnalyzerAgent.check_for_bias (text : String) : List String :=
  let text_lower := text.toLower
  let gendered_terms := ["rockstar", "ninja", "guru", "manpower", "manning"]
  let age_terms := ["young", "energetic", "digital native", "recent graduate only"]
  ((gendered_terms.filter (fun term => py_in term text_lower)).map
     (fun term => "Potentially gendered term: \x27" ++ term ++ "\x27")) ++
  ((age_terms.filter (fun term => py_in term text_lower)).map
     (fun term => "Potentially age-biased term: \x27" ++ term ++ "\x27"))

/-- Embedding of `JDAnalyzerAgent._process` (jd_analyzer.py, lines 48-105):
a deterministic mock that never raises; returns the mock `ParsedJD`,
confidence 0.9 and an explanation (numeric formatting abstracted as
`toString`). -/
def JDAnalyzerAgent.process (input_data : JobDescription) :
    Except String (ParsedJD × ℚ × String) :=
  let bias_flags := JDAnalyzerAgent.check_for_bias input_data.raw_description
  let parsed : ParsedJD :=
    { job_id := input_data.job_id
      parsing_confidence := 9/10
      job_title_normalized := input_data.title
      seniority_level := "mid"
      job_function := "engineering"
      skills := []
      experience_requirements := { minimum_years := 3, preferred_years := 5 }
      education_requirements := { minimum_degree := "bachelors" }
      key_responsibilities := []
      technical_topics := []
      difficulty_level := "intermediate"
      jd_quality_score := 4/5
      potential_bias_flags := bias_flags
      parsing_warnings := ["Mock implementation - actual parsing not yet implemented"] }
  Except.ok (parsed, 9/10,
    "Analyzed job description for \x27" ++ input_data.title ++ "\x27. " ++
    "Extracted " ++ toString parsed.skills.length ++ " skill requirements, " ++
    "experience requirements (" ++ toString parsed.experience_requirements.minimum_years ++
    "+ years), and education requirements (" ++
    parsed.education_requirements.minimum_degree ++ "). Identified " ++
    toString bias_flags.length ++ " potential bias concerns.")

/-- The input dict of `ResumeParserAgent._process` (resume_parser.py, lines
59-66). -/
structure ResumeParserInput where
  candidate_id : String
  resume_text : String
  resume_format : String
deriving DecidableEq

/-- Embedding of `ResumeParserAgent._process` (resume_parser.py, lines
52-104): raises `ValueError("No resume text provided")` iff the resume text
is empty, otherwise returns the mock `ParsedResume` with confidence 0.85
(the `candidate_id[:8]` rendering inside the explanation is abstracted to
the full id). -/
def ResumeParserAgent.process (input_data : ResumeParserInput) :
    Except String (ParsedResume × ℚ × String) :=
  if input_data.resume_text = "" then
    Except.error "No resume text provided"
  else
    let parsed : ParsedResume :=
      { candidate_id := input_data.candidate_id
        parsing_confidence := 17/20
        professional_summary := "[To be extracted by LLM]"
        certifications := []
        total_experience_months := 0
        unique_skills_count := 0
        resume_quality_score := 0
        parsing_warnings := ["Mock implementation - actual parsing not yet implemented"] }
    Except.ok (parsed, 17/20,
      "Parsed resume for candidate " ++ input_data.candidate_id ++ ". " ++
      "Extracted structured data including skills, experience, and education. " ++
      "Personal information has been anonymized.")

/-! ## `agents/bias_auditor.py`: the governance agent -/

/-- Input of the bias auditor (`BiasAuditInput`, bias_auditor.py, lines
18-22). -/
structure BiasAuditInput where
  pipeline_state : PipelineState
  rankings : List FinalRanking

/-- The JD bias flags read by audit 1:
`pipeline_state.parsed_jd.get("potential_bias_flags", [])`
(bias_auditor.py, line 87); an unset `parsed_jd` dict yields `[]`. -/
def BiasAuditorAgent.jd_bias_flags (input_data : BiasAuditInput) : List String :=
  match input_data.pipeline_state.parsed_jd with
  | some p => p.potential_bias_flags
  | none => []

/-- Audit 1 (bias_auditor.py, lines 86-96): any non-empty JD bias-flag list
yields one medium finding. -/
def BiasAuditorAgent.jd_language_findings (flags : List String) : List Finding :=
  if flags = [] then []
  else
    [{ category := "jd_language_bias"
       severity := "medium"
       description := "Job description contains potentially biased language: " ++
         py_str_list flags
       affected_candidates := Sum.inr "all" }]

/-- The borderline gates of audit 2 (bias_auditor.py, line 100):
`[g for g in decision_gates if "borderline" in str(g.get("bias_flags", []))]`. -/
def BiasAuditorAgent.borderline_cases (gates : List DecisionGate) : List DecisionGate :=
  gates.filter (fun g => py_in "borderline" (py_str_list g.bias_flags))

/-- Audit 2 (bias_auditor.py, lines 98-109): strictly more than 30% of the
recorded decision gates flagged borderline yields one high finding. -/
def BiasAuditorAgent.threshold_calibration_findings (gates : List DecisionGate) :
    List Finding :=
  let borderline := BiasAuditorAgent.borderline_cases gates
  if ((borderline.length : ℚ) > (gates.length : ℚ) * (3/10)) then
    [{ category := "threshold_calibration"
       severity := "high"
       description := toString borderline.length ++
         " borderline decisions detected. Threshold may need adjustment."
       affected_candidates := Sum.inl (borderline.map (fun g => g.gate_id)) }]
  else []

/-- Python `max` over a list of numbers (junk value 0 on `[]`; the embedded
caller guards non-emptiness). -/
def py_max (l : List ℚ) : ℚ :=
  match l with
  | [] => 0
  | x :: xs => xs.foldl max x

/-- Python `min` over a list of numbers (junk value 0 on `[]`; the embedded
caller guards non-emptiness). -/
def py_min (l : List ℚ) : ℚ :=
  match l with
  | [] => 0
  | x :: xs => xs.foldl min x

/-- Audit 3 (bias_auditor.py, lines 111-125): with a non-empty ranking list,
a composite-score range below 0.1 across more than 5 scores yields one low
finding (the numeric range rendering inside the description is elided). -/
def BiasAuditorAgent.score_clustering_findings (rankings : List FinalRanking) :
    List Finding :=
  if rankings = [] then []
  else
    let scores := rankings.map (fun r => r.final_composite_score)
    let score_range := py_max scores - py_min scores
    if score_range < 1/10 ∧ scores.length > 5 then
      [{ category := "score_clustering"
         severity := "low"
         description := "Scores are clustered in narrow range. May indicate evaluation issues."
         affected_candidates := Sum.inr "all_ranked" }]
    else []

/-- The rankings audit 4 flags (bias_auditor.py, lines 128-131):
`not r.ranking_explanation or len(r.ranking_explanation) < 20`. -/
def BiasAuditorAgent.rankings_without_explanation (rankings : List FinalRanking) :
    List FinalRanking :=
  rankings.filter (fun r =>
    decide (r.ranking_explanation = "") || decide (r.ranking_explanation.length < 20))

/-- Audit 4 (bias_auditor.py, lines 127-139): any ranking lacking an
adequate explanation yields one medium finding. -/
def BiasAuditorAgent.explanation_quality_findings (rankings : List FinalRanking) :
    List Finding :=
  let missing := BiasAuditorAgent.rankings_without_explanation rankings
  if missing = [] then []
  else
    [{ category := "explanation_quality"
       severity := "medium"
       description := toString missing.length ++ " rankings lack adequate explanation."
       affected_candidates := Sum.inl (missing.map (fun r => r.candidate_id)) }]

/-- All findings of one `_process` invocation, in the order the four audit
blocks append them (bias_auditor.py, lines 82-139). -/
def BiasAuditorAgent.audit_findings (input_data : BiasAuditInput) : List Finding :=
  BiasAuditorAgent.jd_language_findings (BiasAuditorAgent.jd_bias_flags input_data) ++
  BiasAuditorAgent.threshold_calibration_findings
    input_data.pipeline_state.decision_gates ++
  BiasAuditorAgent.score_clustering_findings input_data.rankings ++
  BiasAuditorAgent.explanation_quality_findings input_data.rankings

/-- The recommendations appended alongside the findings (bias_auditor.py,
lines 95, 108, 139; audit 3 appends none). -/
def BiasAuditorAgent.audit_recommendations (input_data : BiasAuditInput) : List String :=
  (if BiasAuditorAgent.jd_bias_flags input_data = [] then []
   else ["Review and revise job description language"]) ++
  (if ((BiasAuditorAgent.borderline_cases
          input_data.pipeline_state.decision_gates).length : ℚ) >
        (input_data.pipeline_state.decision_gates.length : ℚ) * (3/10) then
     ["Review threshold settings and borderline decisions"]
   else []) ++
  (if BiasAuditorAgent.rankings_without_explanation input_data.rankings = [] then []
   else ["Ensure all decisions have clear, documented explanations"])

/-- Embedding of `severity_weights.get(f["severity"], 0.1)`
(bias_auditor.py, lines 142-145). -/
def BiasAuditorAgent.severity_weights (s : String) : ℚ :=
  if s = "high" then 3/10
  else if s = "medium" then 3/20
  else if s = "low" then 1/20
  else 1/10

/-- The fairness penalty `sum(severity_weights.get(f["severity"], 0.1) for f
in findings)` (bias_auditor.py, lines 143-146). -/
def BiasAuditorAgent.audit_penalty (findings : List Finding) : ℚ :=
  (findings.map (fun f => BiasAuditorAgent.severity_weights f.severity)).sum

/-- `fairness_score = max(0.0, 1.0 - penalty)` (bias_auditor.py, line 147). -/
def BiasAuditorAgent.audit_fairness_score (findings : List Finding) : ℚ :=
  max 0 (1 - BiasAuditorAgent.audit_penalty findings)

/-- `has_high_severity = any(f["severity"] == "high" for f in findings)`
(bias_auditor.py, line 150). -/
def BiasAuditorAgent.has_high_severity (findings : List Finding) : Bool :=
  findings.any (fun f => decide (f.severity = "high"))

/-- `audit_passed = fairness_score >= 0.7 and not has_high_severity`
(bias_auditor.py, line 151). -/
def BiasAuditorAgent.audit_decision (findings : List Finding) : Bool :=
  decide (BiasAuditorAgent.audit_fairness_score findings ≥ 7/10) &&
  !BiasAuditorAgent.has_high_severity findings

/-- Embedding of `BiasAuditorAgent._process` (bias_auditor.py, lines
67-186): total (the body performs no raising operation), returning the
`BiasAuditResult`, confidence 0.9 and an explanation (the `{:.0%}` fairness
rendering is elided). -/
def BiasAuditorAgent.process_result (input_data : BiasAuditInput) :
    BiasAuditResult × ℚ × String :=
  let findings := BiasAuditorAgent.audit_findings input_data
  let recommendations := BiasAuditorAgent.audit_recommendations input_data
  let fairness_score := BiasAuditorAgent.audit_fairness_score findings
  let has_high_severity := BiasAuditorAgent.has_high_severity findings
  let audit_passed := BiasAuditorAgent.audit_decision findings
  let compliance_notes :=
    ["Audit completed at pipeline stage: " ++
       input_data.pipeline_state.current_stage.value,
     "Total candidates processed: " ++
       toString input_data.pipeline_state.candidates.length,
     "Total findings: " ++ toString findings.length ++
       " (High: " ++ toString (findings.countP (fun f => f.severity = "high")) ++
       ", Medium: " ++ toString (findings.countP (fun f => f.severity = "medium")) ++
       ", Low: " ++ toString (findings.countP (fun f => f.severity = "low")) ++ ")"]
  let result : BiasAuditResult :=
    { audit_passed := audit_passed
      overall_fairness_score := fairness_score
      findings := findings
      recommendations := recommendations
      requires_human_review := !audit_passed || has_high_severity
      compliance_notes := compliance_notes }
  (result, 9/10,
    "Bias audit " ++ (if audit_passed then "PASSED" else "REQUIRES REVIEW") ++
    ". Found " ++ toString findings.length ++ " issues. " ++
    toString recommendations.length ++ " recommendations provided.")

/-- The `BiasAuditResult` of one `_process` invocation. -/
def BiasAuditorAgent.audit_result (input_data : BiasAuditInput) : BiasAuditResult :=
  (BiasAuditorAgent.process_result input_data).1

/-- `_process` wrapped as fallible domain logic for `BaseAgent.run` (it is
in fact total). -/
def BiasAuditorAgent.process (input_data : BiasAuditInput) :
    Except String (BiasAuditResult × ℚ × String) :=
  Except.ok (BiasAuditorAgent.process_result input_data)

/-- Every finding any invocation produces carries one of the three
severities the four audit blocks tag. -/
theorem BiasAuditorAgent.audit_findings_severities (input_data : BiasAuditInput) :
    ∀ f ∈ BiasAuditorAgent.audit_findings input_data,
      f.severity = "high" ∨ f.severity = "medium" ∨ f.severity = "low" := by
  intro f hf
  simp only [BiasAuditorAgent.audit_findings, List.mem_append] at hf
  rcases hf with ((hf | hf) | hf) | hf
  · simp only [BiasAuditorAgent.jd_language_findings] at hf
    split at hf <;> simp_all
  · simp only [BiasAuditorAgent.threshold_calibration_findings] at hf
    split at hf <;> simp_all
  · simp only [BiasAuditorAgent.score_clustering_findings] at hf
    split at hf
    · simp_all
    · split at hf <;> simp_all
  · simp only [BiasAuditorAgent.explanation_quality_findings] at hf
    split at hf <;> simp_all

/-- C6: for every invocation of the bias auditor, the fairness score equals
`max(0, 1 − Σ severity_weight)` with weights 0.3 / 0.15 / 0.05 for high /
medium / low (every finding carries one of those severities, so the 0.1
fallback weight never applies); `audit_passed` holds exactly when the
fairness score is ≥ 0.7 and no high-severity finding exists; zero findings
give fairness 1.0 and a passing audit; and `requires_human_review` holds
exactly when the audit failed or a high-severity finding exists. -/
theorem BiasAuditorAgent.fairness_formula_and_audit_rules (input_data : BiasAuditInput) :
    (∀ f ∈ (BiasAuditorAgent.audit_result input_data).findings,
       f.severity = "high" ∨ f.severity = "medium" ∨ f.severity = "low") ∧
    (BiasAuditorAgent.audit_result input_data).overall_fairness_score =
      max 0 (1 - ((BiasAuditorAgent.audit_result input_data).findings.map (fun f =>
        if f.severity = "high" then (3 : ℚ)/10
        else if f.severity = "medium" then 3/20
        else 1/20)).sum) ∧
    ((BiasAuditorAgent.audit_result input_data).audit_passed = true ↔
      ((BiasAuditorAgent.audit_result input_data).overall_fairness_score ≥ 7/10 ∧
       ∀ f ∈ (BiasAuditorAgent.audit_result input_data).findings, f.severity ≠ "high")) ∧
    ((BiasAuditorAgent.audit_result input_data).findings = [] →
      (BiasAuditorAgent.audit_result input_data).overall_fairness_score = 1 ∧
      (BiasAuditorAgent.audit_result input_data).audit_passed = true) ∧
    ((BiasAuditorAgent.audit_result input_data).requires_human_review = true ↔
      ((BiasAuditorAgent.audit_result input_data).audit_passed = false ∨
       ∃ f ∈ (BiasAuditorAgent.audit_result input_data).findings, f.severity = "high")) := by
  have hsev := BiasAuditorAgent.audit_findings_severities input_data
  have hfind : (BiasAuditorAgent.audit_result input_data).findings =
      BiasAuditorAgent.audit_findings input_data := rfl
  refine ⟨by rw [hfind]; exact hsev, ?_, ?_, ?_, ?_⟩
  · show BiasAuditorAgent.audit_fairness_score (BiasAuditorAgent.audit_findings input_data) = _
    rw [hfind]
    unfold BiasAuditorAgent.audit_fairness_score BiasAuditorAgent.audit_penalty
    have hmap : (BiasAuditorAgent.audit_findings input_data).map
        (fun f => BiasAuditorAgent.severity_weights f.severity) =
        (BiasAuditorAgent.audit_findings input_data).map (fun f =>
          if f.severity = "high" then (3 : ℚ)/10
          else if f.severity = "medium" then 3/20
          else 1/20) := by
      apply List.map_congr_left
      intro f hf
      rcases hsev f hf with h | h | h <;> simp [BiasAuditorAgent.severity_weights, h]
    rw [hmap]
  · show BiasAuditorAgent.audit_decision (BiasAuditorAgent.audit_findings input_data) = true ↔ _
    rw [hfind]
    show _ ↔ (BiasAuditorAgent.audit_fairness_score
        (BiasAuditorAgent.audit_findings input_data) ≥ 7/10 ∧ _)
    simp [BiasAuditorAgent.audit_decision, BiasAuditorAgent.has_high_severity,
      List.any_eq_true, not_exists]
  · rw [hfind]
    intro h
    constructor
    · show BiasAuditorAgent.audit_fairness_score (BiasAuditorAgent.audit_findings input_data) = 1
      rw [h]
      with_unfolding_all decide
    · show BiasAuditorAgent.audit_decision (BiasAuditorAgent.audit_findings input_data) = true
      rw [h]
      with_unfolding_all decide
  · show (!BiasAuditorAgent.audit_decision (BiasAuditorAgent.audit_findings input_data) ||
        BiasAuditorAgent.has_high_severity (BiasAuditorAgent.audit_findings input_data)) =
        true ↔ _
    rw [hfind]
    show _ ↔ (BiasAuditorAgent.audit_decision
      (BiasAuditorAgent.audit_findings input_data) = false ∨ _)
    simp [BiasAuditorAgent.has_high_severity, List.any_eq_true, Bool.not_eq_true']

/-- A fixed job value used by the concrete sample states below. -/
def sample_job : JobDescription :=
  { job_id := "job-001"
    title := "Backend Engineer"
    raw_description := "Design and build backend services."
    shortlist_threshold := none }

/-- A pipeline state at the `Ranking` stage with empty logs, used as the
base of the concrete bias-audit inputs below. -/
def audit_state_base : PipelineState :=
  { pipeline_id := ""
    job_id := "job-001"
    current_stage := PipelineStage.ranking
    job_description := sample_job
    candidates := []
    parsed_jd := none
    match_results := []
    shortlisted_candidates := []
    test_questions := []
    test_results := []
    final_rankings := []
    bias_audit_results := none
    decision_gates := []
    agent_responses := []
    errors := []
    warnings := [] }

/-- Witness for C6: an input with zero findings evaluates to fairness 1.0
and a passing audit. -/
theorem BiasAuditorAgent.fairness_formula_witness :
    (BiasAuditorAgent.audit_result ⟨audit_state_base, []⟩).overall_fairness_score = 1 ∧
    (BiasAuditorAgent.audit_result ⟨audit_state_base, []⟩).audit_passed = true :=
  (BiasAuditorAgent.fairness_formula_and_audit_rules ⟨audit_state_base, []⟩).2.2.2.1
    (by with_unfolding_all decide)

/-- C7: whenever strictly more than 30% of the recorded decision gates are
flagged borderline, the auditor yields a high-severity
`threshold_calibration` finding and the audit fails regardless of the
fairness score. -/
theorem BiasAuditorAgent.borderline_ratio_forces_failure (input_data : BiasAuditInput)
    (h : ((BiasAuditorAgent.borderline_cases
            input_data.pipeline_state.decision_gates).length : ℚ) >
         (input_data.pipeline_state.decision_gates.length : ℚ) * (3/10)) :
    (∃ f ∈ (BiasAuditorAgent.audit_result input_data).findings,
       f.severity = "high" ∧ f.category = "threshold_calibration") ∧
    (BiasAuditorAgent.audit_result input_data).audit_passed = false := by
  have hthr : BiasAuditorAgent.threshold_calibration_findings
      input_data.pipeline_state.decision_gates =
      [{ category := "threshold_calibration"
         severity := "high"
         description := toString (BiasAuditorAgent.borderline_cases
             input_data.pipeline_state.decision_gates).length ++
           " borderline decisions detected. Threshold may need adjustment."
         affected_candidates := Sum.inl ((BiasAuditorAgent.borderline_cases
             input_data.pipeline_state.decision_gates).map (fun g => g.gate_id)) }] := by
    unfold BiasAuditorAgent.threshold_calibration_findings
    rw [if_pos h]
  have hfind : (BiasAuditorAgent.audit_result input_data).findings =
      BiasAuditorAgent.audit_findings input_data := rfl
  have hmem : ∃ f ∈ BiasAuditorAgent.audit_findings input_data,
      f.severity = "high" ∧ f.category = "threshold_calibration" := by
    refine ⟨{ category := "threshold_calibration"
              severity := "high"
              description := toString (BiasAuditorAgent.borderline_cases
                  input_data.pipeline_state.decision_gates).length ++
                " borderline decisions detected. Threshold may need adjustment."
              affected_candidates := Sum.inl ((BiasAuditorAgent.borderline_cases
                  input_data.pipeline_state.decision_gates).map (fun g => g.gate_id)) },
           ?_, rfl, rfl⟩
    unfold BiasAuditorAgent.audit_findings
    rw [hthr]
    simp
  refine ⟨by rw [hfind]; exact hmem, ?_⟩
  show BiasAuditorAgent.audit_decision (BiasAuditorAgent.audit_findings input_data) = false
  obtain ⟨f, hf, hhigh, _⟩ := hmem
  have hh : BiasAuditorAgent.has_high_severity
      (BiasAuditorAgent.audit_findings input_data) = true := by
    simp [BiasAuditorAgent.has_high_severity, List.any_eq_true]
    exact ⟨f, hf, hhigh⟩
  simp [BiasAuditorAgent.audit_decision, hh]

/-- A decision gate whose `bias_flags` carry the `"borderline"` marker. -/
def borderline_gate (n : String) : DecisionGate :=
  { gate_id := n
    gate_name := "shortlist_gate"
    condition := "Match score >= 0.7"
    threshold := 7/10
    passed := true
    explanation := ""
    bias_flags := ["borderline"] }

/-- A decision gate with no bias flags. -/
def clear_gate (n : String) : DecisionGate :=
  { gate_id := n
    gate_name := "shortlist_gate"
    condition := "Match score >= 0.7"
    threshold := 7/10
    passed := true
    explanation := ""
    bias_flags := [] }

/-- Ten recorded decision gates of which four are flagged borderline. -/
def c7_gates : List DecisionGate :=
  [borderline_gate "g1", borderline_gate "g2", borderline_gate "g3",
   borderline_gate "g4", clear_gate "g5", clear_gate "g6", clear_gate "g7",
   clear_gate "g8", clear_gate "g9", clear_gate "g10"]

/-- Witness for C7: 4 borderline gates out of 10 (40% > 30%) force a
high-severity finding and a failing audit. -/
theorem BiasAuditorAgent.borderline_ratio_witness :
    (∃ f ∈ (BiasAuditorAgent.audit_result
        ⟨{ audit_state_base with decision_gates := c7_gates }, []⟩).findings,
       f.severity = "high" ∧ f.category = "threshold_calibration") ∧
    (BiasAuditorAgent.audit_result
        ⟨{ audit_state_base with decision_gates := c7_gates }, []⟩).audit_passed = false :=
  BiasAuditorAgent.borderline_ratio_forces_failure
    ⟨{ audit_state_base with decision_gates := c7_gates }, []⟩
    (by with_unfolding_all decide)

/-! ## Decision-gate evaluation and the gate rows of the audit ledger
(`core/logger.py`) -/

/-- Modelled from the spec: `DecisionGate` evaluation (schemas/messages.py
is not under src/).  Spec §4.2: given a measured value `v` and threshold
`t`, `passed = v >= t` and `borderline = |v - t| < margin` with a
configurable margin. -/
def DecisionGate.evaluate (v t margin : ℚ) : Bool × Bool :=
  (decide (v ≥ t), decide (|v - t| < margin))

/-- Modelled from the spec: the default borderline margin 0.1 (spec §4.2);
it coincides with the fixed 0.1 band hard-coded in
`AuditLogger.log_decision_gate` (core/logger.py, line 155). -/
def DecisionGate.default_margin : ℚ := 1/10

/-- The audit-ledger row written by `AuditLogger.log_decision_gate`
(core/logger.py, lines 132-156); `entry_id`/`timestamp` (uuid/wall-clock)
are outside the embedding and the correlation keys are omitted (the claim
reads none of them). -/
structure GateAuditEntry where
  event_type : String
  action : String
  threshold : ℚ
  actual_value : ℚ
  margin : ℚ
  outcome : String
  requires_review : Bool
deriving DecidableEq

/-- Embedding of `AuditLogger.log_decision_gate` (core/logger.py, lines
132-156): stores the gate evaluation with
`requires_review = |actual_value - threshold| < 0.1`. -/
def AuditLogger.log_decision_gate (gate_name : String) (passed : Bool)
    (threshold actual_value : ℚ) : GateAuditEntry :=
  { event_type := "decision_gate"
    action := "gate_" ++ gate_name
    threshold := threshold
    actual_value := actual_value
    margin := |actual_value - threshold|
    outcome := if passed then "passed" else "failed"
    requires_review := decide (|actual_value - threshold| < 1/10) }

/-- C8: gate evaluation yields `passed = (v ≥ t)` and
`borderline = (|v − t| < margin)` with default margin 0.1; the three
concrete spec examples evaluate as claimed; and the borderline band the
ledger's `log_decision_gate` flags for review coincides with the default
borderline flag. -/
theorem DecisionGate.evaluate_spec (v t margin : ℚ) :
    ((DecisionGate.evaluate v t margin).1 = true ↔ v ≥ t) ∧
    ((DecisionGate.evaluate v t margin).2 = true ↔ |v - t| < margin) ∧
    DecisionGate.default_margin = 1/10 ∧
    DecisionGate.evaluate (3/4) (7/10) (1/10) = (true, true) ∧
    DecisionGate.evaluate (19/20) (7/10) (1/10) = (true, false) ∧
    DecisionGate.evaluate (1/2) (7/10) (1/10) = (false, false) ∧
    (AuditLogger.log_decision_gate "shortlist_gate"
        (DecisionGate.evaluate v t DecisionGate.default_margin).1 t v).requires_review =
      (DecisionGate.evaluate v t DecisionGate.default_margin).2 := by
  refine ⟨by simp [DecisionGate.evaluate], by simp [DecisionGate.evaluate], rfl,
    ?_, ?_, ?_, rfl⟩ <;> with_unfolding_all decide

/-! ## `OrchestratorAgent.create_pipeline` (orchestrator.py) -/

/-- Modelled from the spec: construction of a fresh `PipelineState`
(schemas/messages.py and schemas/job.py are not under src/).  Spec §4.2:
`CreatePipeline` "fails with an InvalidInput condition if candidates is
empty or job lacks an identifier"; the visible `create_pipeline` body
performs no explicit check, so the validation is modelled here at the state
construction ("lacks an identifier" = empty `job_id`).  The remaining
fields start empty per spec §3. -/
def PipelineState.create (job : JobDescription) (candidates : List CandidateRecord) :
    Except String PipelineState :=
  if candidates = [] ∨ job.job_id = "" then
    Except.error "InvalidInput: candidates is empty or job lacks an identifier"
  else
    Except.ok
      { pipeline_id := ""
        job_id := job.job_id
        current_stage := PipelineStage.initialized
        job_description := job
        candidates := candidates
        parsed_jd := none
        match_results := []
        shortlisted_candidates := []
        test_questions := []
        test_results := []
        final_rankings := []
        bias_audit_results := none
        decision_gates := []
        agent_responses := []
        errors := []
        warnings := [] }

/-- Embedding of `OrchestratorAgent.create_pipeline` (orchestrator.py, lines
100-123): allocates the fresh state at `Initialized`, snapshotting the job
(`job.to_dict()` abstracted to the structured value) and the candidate list
(`c.to_dict()` as `CandidateProfile.to_record`). -/
def OrchestratorAgent.create_pipeline (job : JobDescription)
    (candidates : List CandidateProfile) : Except String PipelineState :=
  PipelineState.create job (candidates.map CandidateProfile.to_record)

/-- C9: `create_pipeline` fails with the InvalidInput condition whenever the
candidate list is empty or the job lacks an identifier, and otherwise
allocates a fresh state at `Initialized` snapshotting the job and the
candidates with all logs empty. -/
theorem OrchestratorAgent.create_pipeline_spec (job : JobDescription)
    (candidates : List CandidateProfile) :
    (candidates = [] ∨ job.job_id = "" →
      OrchestratorAgent.create_pipeline job candidates =
        Except.error "InvalidInput: candidates is empty or job lacks an identifier") ∧
    (candidates ≠ [] ∧ job.job_id ≠ "" →
      OrchestratorAgent.create_pipeline job candidates = Except.ok
        { pipeline_id := ""
          job_id := job.job_id
          current_stage := PipelineStage.initialized
          job_description := job
          candidates := candidates.map CandidateProfile.to_record
          parsed_jd := none
          match_results := []
          shortlisted_candidates := []
          test_questions := []
          test_results := []
          final_rankings := []
          bias_audit_results := none
          decision_gates := []
          agent_responses := []
          errors := []
          warnings := [] }) := by
  unfold OrchestratorAgent.create_pipeline PipelineState.create
  constructor
  · intro h
    rw [if_pos]
    rcases h with h | h
    · exact Or.inl (by simp [h])
    · exact Or.inr h
  · intro h
    rw [if_neg]
    intro hc
    rcases hc with hc | hc
    · exact h.1 (by simpa using hc)
    · exact h.2 hc

/-- A concrete candidate profile for the sample pipelines below. -/
def sample_candidate : CandidateProfile :=
  { candidate_id := "cand-1"
    anonymized_id := "anon-1"
    email_hash := "hash-1"
    resume_file_path := "resumes/cand-1.txt"
    data_consent_given := true }

/-- Witness for C9: the empty candidate list is rejected, and a well-formed
job with one candidate yields the fresh `Initialized` state. -/
theorem OrchestratorAgent.create_pipeline_spec_witness :
    OrchestratorAgent.create_pipeline sample_job [] =
      Except.error "InvalidInput: candidates is empty or job lacks an identifier" ∧
    OrchestratorAgent.create_pipeline sample_job [sample_candidate] = Except.ok
      { pipeline_id := ""
        job_id := sample_job.job_id
        current_stage := PipelineStage.initialized
        job_description := sample_job
        candidates := [sample_candidate].map CandidateProfile.to_record
        parsed_jd := none
        match_results := []
        shortlisted_candidates := []
        test_questions := []
        test_results := []
        final_rankings := []
        bias_audit_results := none
        decision_gates := []
        agent_responses := []
        errors := []
        warnings := [] } :=
  ⟨(OrchestratorAgent.create_pipeline_spec sample_job []).1 (Or.inl rfl),
   (OrchestratorAgent.create_pipeline_spec sample_job [sample_candidate]).2
     ⟨by decide, by decide⟩⟩

/-! ## The pipeline state machine (`agents/orchestrator.py`)

The orchestrator's in-process `_audit_log` (`_log_event`) is outside the
embedding: no claim reads it and it never feeds back into the pipeline
state. -/

/-- Embedding of `OrchestratorAction` (orchestrator.py, lines 36-42);
constructor names follow the Python enum members. -/
inductive OrchestratorAction where
  | CONTINUE
  | PAUSE
  | RETRY
  | ABORT
  | COMPLETE
deriving DecidableEq

/-- Embedding of the `OrchestratorDecision` dataclass (orchestrator.py,
lines 45-52). -/
structure OrchestratorDecision where
  action : OrchestratorAction
  next_stage : Option PipelineStage
  reason : String
  requires_human_approval : Bool
  blocked_by : Option (List String)

/-- The orchestrator's environment: `job_from_dict` models the dataclass
reconstruction `JobDescription(**{k: v for k, v in job_dict.items() if k in
JobDescription.__dataclass_fields__})` (orchestrator.py, lines 212-214).
`schemas/job.py` is not under src/, so whether this reconstruction can raise
is unknown; it is a parameter, instantiated with `Except.ok` for the
concrete runs below.  A raise here is an uncaught stage-handler exception
(it happens outside any `BaseAgent.run`). -/
structure OrchestratorEnv where
  job_from_dict : JobDescription → Except String JobDescription

/-- Embedding of `OrchestratorAgent._record_agent_response`
(orchestrator.py, lines 341-353): appends the response dict to the state's
log and extends the state's warnings when the response carries any. -/
def OrchestratorAgent.record_agent_response (st : PipelineState)
    (r : RecordedResponse) : PipelineState :=
  let st1 := st.add_agent_response r
  if r.warnings = [] then st1
  else { st1 with warnings := st1.warnings ++ r.warnings }

/-- Embedding of `OrchestratorAgent._run_jd_analysis` (orchestrator.py,
lines 210-230). -/
def OrchestratorAgent.run_jd_analysis (env : OrchestratorEnv) (st : PipelineState) :
    Except String (OrchestratorDecision × PipelineState) := do
  let job ← env.job_from_dict st.job_description
  let response := BaseAgent.run "JDAnalyzerAgent"
    BaseAgent.required_confidence_threshold JDAnalyzerAgent.process job
  let st1 := OrchestratorAgent.record_agent_response st
    (response.to_record RespData.jd)
  if response.status = AgentStatus.success then
    return (⟨OrchestratorAction.CONTINUE, some PipelineStage.jd_analysis,
      "JD analysis completed", false, none⟩,
      { st1 with parsed_jd := response.data })
  else
    return (⟨OrchestratorAction.ABORT, none,
      "JD analysis failed: " ++ py_str_list response.errors, false, none⟩, st1)

/-- The per-candidate input dict built by `_run_resume_parsing`
(orchestrator.py, lines 237-241); `candidate_dict.get("candidate_id", "")`
always finds the key in the embedded records. -/
def OrchestratorAgent.mk_resume_input (c : CandidateRecord) : ResumeParserInput :=
  { candidate_id := c.candidate_id
    resume_text := "[Mock resume text]"
    resume_format := "txt" }

/-- The `{**c, "parsed_resume": pr}` merge of `_run_resume_parsing`
(orchestrator.py, lines 250-253). -/
def CandidateRecord.with_parsed (c : CandidateRecord) (pr : ParsedResume) :
    CandidateRecord :=
  { c with parsed_resume := some pr }

/-- The per-candidate loop of `_run_resume_parsing` (orchestrator.py, lines
234-247): runs the parser on each candidate, records every response, and
collects the payloads of the successful parses in order (`response.status
== SUCCESS and response.data`; a dataclass payload is always truthy, so the
data check only excludes an absent payload). -/
def OrchestratorAgent.parse_candidates
    (parser_run : ResumeParserInput → AgentResponse ParsedResume) :
    List CandidateRecord → PipelineState → PipelineState × List ParsedResume
  | [], st => (st, [])
  | c :: cs, st =>
      let response := parser_run (OrchestratorAgent.mk_resume_input c)
      let st1 := OrchestratorAgent.record_agent_response st
        (response.to_record RespData.resume)
      let rest := OrchestratorAgent.parse_candidates parser_run cs st1
      (rest.1,
       (if response.status = AgentStatus.success then response.data.toList else []) ++
         rest.2)

/-- The list of successfully parsed resumes `_run_resume_parsing` collects,
as a function of the candidate list alone. -/
def OrchestratorAgent.successful_parses
    (parser_run : ResumeParserInput → AgentResponse ParsedResume)
    (cs : List CandidateRecord) : List ParsedResume :=
  cs.filterMap (fun c =>
    let r := parser_run (OrchestratorAgent.mk_resume_input c)
    if r.status = AgentStatus.success then r.data else none)

/-- Embedding of `OrchestratorAgent._run_resume_parsing` (orchestrator.py,
lines 232-259), parametrized by the parser's `run` (the handler treats it as
a black box producing an `AgentResponse`): records one response per
candidate, then replaces `candidates` by the positional zip with the
successful parses, and always continues. -/
def OrchestratorAgent.run_resume_parsing_with
    (parser_run : ResumeParserInput → AgentResponse ParsedResume)
    (st : PipelineState) : OrchestratorDecision × PipelineState :=
  let result := OrchestratorAgent.parse_candidates parser_run st.candidates st
  let st1 := result.1
  let parsed_resumes := result.2
  (⟨OrchestratorAction.CONTINUE, some PipelineStage.resume_parsing,
    "Parsed " ++ toString parsed_resumes.length ++ " resumes", false, none⟩,
   { st1 with candidates :=
      List.zipWith CandidateRecord.with_parsed st1.candidates parsed_resumes })

/-- `_run_resume_parsing` with the concrete `ResumeParserAgent` runner
(orchestrator.py, line 243). -/
def OrchestratorAgent.run_resume_parsing (st : PipelineState) :
    OrchestratorDecision × PipelineState :=
  OrchestratorAgent.run_resume_parsing_with
    (BaseAgent.run "ResumeParserAgent" ResumeParserAgent.required_confidence_threshold
      ResumeParserAgent.process) st

/-- Embedding of `OrchestratorAgent._run_matching` (orchestrator.py, lines
261-270): mock, clears `match_results` and continues. -/
def OrchestratorAgent.run_matching (st : PipelineState) :
    OrchestratorDecision × PipelineState :=
  (⟨OrchestratorAction.CONTINUE, some PipelineStage.matching,
    "Matching completed", false, none⟩,
   { st with match_results := [] })

/-- Embedding of `OrchestratorAgent._run_shortlisting` (orchestrator.py,
lines 272-291): appends the always-passing mock decision gate (the numeric
threshold rendering inside `condition` uses `toString`). -/
def OrchestratorAgent.run_shortlisting (st : PipelineState) :
    OrchestratorDecision × PipelineState :=
  let threshold := st.job_description.shortlist_threshold.getD (7/10)
  let gate : DecisionGate :=
    { gate_id := ""
      gate_name := "shortlist_gate"
      condition := "Match score >= " ++ toString threshold
      threshold := threshold
      passed := true
      explanation := "Shortlisting decision gate passed"
      bias_flags := [] }
  (⟨OrchestratorAction.CONTINUE, some PipelineStage.shortlisting,
    "Shortlisting completed", false, none⟩,
   st.add_decision_gate gate)

/-- Embedding of `OrchestratorAgent._run_test_generation` (orchestrator.py,
lines 293-302): mock, clears `test_questions` and continues. -/
def OrchestratorAgent.run_test_generation (st : PipelineState) :
    OrchestratorDecision × PipelineState :=
  (⟨OrchestratorAction.CONTINUE, some PipelineStage.test_generation,
    "Test generation completed", false, none⟩,
   { st with test_questions := [] })

/-- Embedding of `OrchestratorAgent._run_test_evaluation` (orchestrator.py,
lines 304-313): mock, clears `test_results` and continues. -/
def OrchestratorAgent.run_test_evaluation (st : PipelineState) :
    OrchestratorDecision × PipelineState :=
  (⟨OrchestratorAction.CONTINUE, some PipelineStage.test_evaluation,
    "Test evaluation completed", false, none⟩,
   { st with test_results := [] })

/-- Embedding of `OrchestratorAgent._run_ranking` (orchestrator.py, lines
315-324): mock, clears `final_rankings` and continues. -/
def OrchestratorAgent.run_ranking (st : PipelineState) :
    OrchestratorDecision × PipelineState :=
  (⟨OrchestratorAction.CONTINUE, some PipelineStage.ranking,
    "Ranking completed", false, none⟩,
   { st with final_rankings := [] })

/-- Embedding of `OrchestratorAgent._run_bias_audit` (orchestrator.py,
lines 326-339): a mock that never invokes the `BiasAuditorAgent`; it stores
the fixed summary `{"audit_passed": True, "fairness_score": 0.9,
"findings": []}` and continues. -/
def OrchestratorAgent.run_bias_audit (st : PipelineState) :
    OrchestratorDecision × PipelineState :=
  let results : BiasAuditSummary :=
    { audit_passed := true, fairness_score := 9/10, findings := [] }
  (⟨OrchestratorAction.CONTINUE, some PipelineStage.bias_audit,
    "Bias audit completed", false, none⟩,
   { st with bias_audit_results := some results })

/-- Embedding of `OrchestratorAgent._execute_current_stage`
(orchestrator.py, lines 176-208); the fall-through branch renders the stage
through its `value` (Python renders the enum member). -/
def OrchestratorAgent.execute_current_stage (env : OrchestratorEnv)
    (st : PipelineState) : Except String (OrchestratorDecision × PipelineState) :=
  match st.current_stage with
  | PipelineStage.initialized => OrchestratorAgent.run_jd_analysis env st
  | PipelineStage.jd_analysis => Except.ok (OrchestratorAgent.run_resume_parsing st)
  | PipelineStage.resume_parsing => Except.ok (OrchestratorAgent.run_matching st)
  | PipelineStage.matching => Except.ok (OrchestratorAgent.run_shortlisting st)
  | PipelineStage.shortlisting => Except.ok (OrchestratorAgent.run_test_generation st)
  | PipelineStage.test_generation => Except.ok (OrchestratorAgent.run_test_evaluation st)
  | PipelineStage.test_evaluation => Except.ok (OrchestratorAgent.run_ranking st)
  | PipelineStage.ranking => Except.ok (OrchestratorAgent.run_bias_audit st)
  | PipelineStage.bias_audit =>
      Except.ok (⟨OrchestratorAction.COMPLETE, none,
        "Pipeline completed successfully", false, none⟩, st)
  | s => Except.ok (⟨OrchestratorAction.ABORT, none,
      "Unknown stage: " ++ s.value, false, none⟩, st)

/-- Embedding of the `while` loop of `OrchestratorAgent.run_pipeline`
(orchestrator.py, lines 137-166), bounded by fuel;
`run_pipeline_loop_is_terminal` below proves 12 units of fuel always reach a
terminal stage, so the bounded loop coincides with the source's unbounded
loop.  Notes kept from the source: an action the `if/elif` chain does not
handle (`RETRY`) leaves the stage unchanged and iterates again; a `CONTINUE`
decision carrying no `next_stage` would set the Python stage to `None` and
subsequently crash — no embedded handler produces one, and the embedding
falls back to keeping the stage. -/
def OrchestratorAgent.run_pipeline_loop (env : OrchestratorEnv) :
    Nat → PipelineState → PipelineState
  | 0, st => st
  | fuel + 1, st =>
    if st.current_stage.is_terminal = true then st
    else
      match OrchestratorAgent.execute_current_stage env st with
      | Except.error e =>
          { st with current_stage := PipelineStage.failed,
                    errors := st.errors ++
                      ["Error in " ++ st.current_stage.value ++ ": " ++ e] }
      | Except.ok (decision, st1) =>
          match decision.action with
          | OrchestratorAction.CONTINUE =>
              OrchestratorAgent.run_pipeline_loop env fuel
                { st1 with current_stage := decision.next_stage.getD st1.current_stage }
          | OrchestratorAction.PAUSE =>
              { st1 with current_stage := PipelineStage.awaiting_human_review }
          | OrchestratorAction.RETRY =>
              OrchestratorAgent.run_pipeline_loop env fuel st1
          | OrchestratorAction.ABORT =>
              { st1 with current_stage := PipelineStage.failed,
                         errors := st1.errors ++ [decision.reason] }
          | OrchestratorAction.COMPLETE =>
              { st1 with current_stage := PipelineStage.completed }

/-- Fuel for the bounded loop: the stage index strictly increases on every
`CONTINUE`, so no run takes more than 10 iterations. -/
def OrchestratorAgent.pipeline_fuel : Nat := 12

/-- Embedding of `OrchestratorAgent.run_pipeline` (orchestrator.py, lines
125-174): raises `ValueError("Pipeline not initialized. Call
create_pipeline first.")` when no pipeline state exists, otherwise runs the
stage loop to a terminal state. -/
def OrchestratorAgent.run_pipeline (env : OrchestratorEnv)
    (state : Option PipelineState) : Except String PipelineState :=
  match state with
  | none => Except.error "Pipeline not initialized. Call create_pipeline first."
  | some st =>
      Except.ok (OrchestratorAgent.run_pipeline_loop env
        OrchestratorAgent.pipeline_fuel st)

/-- Every stage sits at position at most 9 of the fixed order. -/
theorem PipelineStage.idx_le (s : PipelineStage) : s.idx ≤ 9 := by
  cases s <;> simp [PipelineStage.idx]

/-- No stage handler returns `RETRY`, and every `CONTINUE` decision carries
a next stage strictly later in the fixed order. -/
theorem OrchestratorAgent.execute_stage_progress (env : OrchestratorEnv)
    (st : PipelineState) (d : OrchestratorDecision) (st1 : PipelineState)
    (h : OrchestratorAgent.execute_current_stage env st = Except.ok (d, st1)) :
    d.action ≠ OrchestratorAction.RETRY ∧
    (d.action = OrchestratorAction.CONTINUE →
      ∃ ns, d.next_stage = some ns ∧ st.current_stage.idx < ns.idx) := by
  cases hs : st.current_stage
  case initialized =>
    simp only [OrchestratorAgent.execute_current_stage, hs] at h
    cases hj : env.job_from_dict st.job_description with
    | error e =>
        simp [OrchestratorAgent.run_jd_analysis, hj, bind, Except.bind] at h
    | ok job =>
        have hst : (BaseAgent.run "JDAnalyzerAgent"
            BaseAgent.required_confidence_threshold JDAnalyzerAgent.process job).status =
            AgentStatus.success := rfl
        simp only [OrchestratorAgent.run_jd_analysis, hj, bind, Except.bind, hst,
          if_true, eq_self_iff_true, pure, Except.pure, Except.ok.injEq,
          Prod.mk.injEq] at h
        obtain ⟨rfl, rfl⟩ := h
        constructor
        · intro hr
          simp at hr
        · intro hc
          exact ⟨PipelineStage.jd_analysis, rfl, by decide⟩
  all_goals (
    simp only [OrchestratorAgent.execute_current_stage, hs,
      OrchestratorAgent.run_resume_parsing, OrchestratorAgent.run_resume_parsing_with,
      OrchestratorAgent.run_matching, OrchestratorAgent.run_shortlisting,
      OrchestratorAgent.run_test_generation, OrchestratorAgent.run_test_evaluation,
      OrchestratorAgent.run_ranking, OrchestratorAgent.run_bias_audit,
      Except.ok.injEq, Prod.mk.injEq] at h
    obtain ⟨rfl, rfl⟩ := h
    constructor
    · intro hr
      simp at hr
    · intro hc
      first
        | exact ⟨_, rfl, by decide⟩
        | simp at hc)

/-- From any state, 12 units of fuel drive the stage loop to one of the
three terminal stages: the stage index strictly increases on `CONTINUE` and
every other outcome ends the loop at a terminal stage. -/
theorem OrchestratorAgent.run_pipeline_loop_is_terminal (env : OrchestratorEnv) :
    ∀ (fuel : Nat) (st : PipelineState), 10 - st.current_stage.idx ≤ fuel →
      (OrchestratorAgent.run_pipeline_loop env fuel st).current_stage.is_terminal = true := by
  intro fuel
  induction fuel with
  | zero =>
      intro st hfuel
      exfalso
      have := PipelineStage.idx_le st.current_stage
      omega
  | succ n ih =>
      intro st hfuel
      rw [OrchestratorAgent.run_pipeline_loop]
      by_cases ht : st.current_stage.is_terminal = true
      · rw [if_pos ht]; exact ht
      · rw [if_neg ht]
        cases hexec : OrchestratorAgent.execute_current_stage env st with
        | error e => simp [PipelineStage.is_terminal]
        | ok p =>
            obtain ⟨d, st1⟩ := p
            obtain ⟨hretry, hcont⟩ :=
              OrchestratorAgent.execute_stage_progress env st d st1 hexec
            cases hact : d.action with
            | CONTINUE =>
                obtain ⟨ns, hns, hidx⟩ := hcont hact
                simp only [hact, hns, Option.getD_some]
                apply ih
                show 10 - ns.idx ≤ n
                omega
            | PAUSE => simp [hact, PipelineStage.is_terminal]
            | RETRY => exact absurd hact hretry
            | ABORT => simp [hact, PipelineStage.is_terminal]
            | COMPLETE => simp [hact, PipelineStage.is_terminal]

/-- C2 (amended): with an initialized pipeline, `run_pipeline` returns a
`PipelineState` whose `current_stage` is terminal; an uncaught exception
from a stage handler is contained as `Failed` with the exception text
appended to `errors`; a call before `create_pipeline` instead raises
`ValueError("Pipeline not initialized. Call create_pipeline first.")`. -/
theorem OrchestratorAgent.run_pipeline_terminal_or_raises (env : OrchestratorEnv) :
    (∀ st : PipelineState,
       OrchestratorAgent.run_pipeline env (some st) =
         Except.ok (OrchestratorAgent.run_pipeline_loop env
           OrchestratorAgent.pipeline_fuel st) ∧
       (OrchestratorAgent.run_pipeline_loop env
           OrchestratorAgent.pipeline_fuel st).current_stage.is_terminal = true) ∧
    (∀ (st : PipelineState) (e : String),
       st.current_stage.is_terminal = false →
       OrchestratorAgent.execute_current_stage env st = Except.error e →
       OrchestratorAgent.run_pipeline env (some st) = Except.ok
         { st with current_stage := PipelineStage.failed,
                   errors := st.errors ++
                     ["Error in " ++ st.current_stage.value ++ ": " ++ e] }) ∧
    OrchestratorAgent.run_pipeline env none =
      Except.error "Pipeline not initialized. Call create_pipeline first." := by
  refine ⟨fun st => ⟨rfl, ?_⟩, fun st e hterm hexec => ?_, rfl⟩
  · apply OrchestratorAgent.run_pipeline_loop_is_terminal
    show 10 - st.current_stage.idx ≤ 12
    omega
  · show Except.ok (OrchestratorAgent.run_pipeline_loop env (11 + 1) st) = _
    rw [OrchestratorAgent.run_pipeline_loop]
    rw [if_neg (by simp [hterm])]
    rw [hexec]

/-- The environment of the concrete runs: the `JobDescription`
reconstruction succeeds (it round-trips the dict the orchestrator itself
serialized from a well-formed job). -/
def sample_env : OrchestratorEnv := ⟨fun job => Except.ok job⟩

/-- C2 (counterexample): calling `run_pipeline` before any
`create_pipeline` raises `ValueError` instead of returning a terminal
`PipelineState`. -/
theorem OrchestratorAgent.run_pipeline_uninitialized_raises :
    OrchestratorAgent.run_pipeline sample_env none =
      Except.error "Pipeline not initialized. Call create_pipeline first." := rfl

/-- An environment whose `JobDescription` reconstruction raises: a concrete
uncaught stage-handler exception. -/
def raising_env : OrchestratorEnv := ⟨fun _ => Except.error "boom"⟩

/-- A freshly created pipeline state for `sample_job` with one candidate. -/
def sample_initial_state : PipelineState :=
  { pipeline_id := ""
    job_id := "job-001"
    current_stage := PipelineStage.initialized
    job_description := sample_job
    candidates := [sample_candidate.to_record]
    parsed_jd := none
    match_results := []
    shortlisted_candidates := []
    test_questions := []
    test_results := []
    final_rankings := []
    bias_audit_results := none
    decision_gates := []
    agent_responses := []
    errors := []
    warnings := [] }

/-- Witness for the amended C2: terminality of a concrete run, containment
of a concrete stage-handler exception, and the uninitialized raise. -/
theorem OrchestratorAgent.run_pipeline_terminal_or_raises_witness :
    (OrchestratorAgent.run_pipeline_loop raising_env
        OrchestratorAgent.pipeline_fuel sample_initial_state).current_stage.is_terminal =
      true ∧
    OrchestratorAgent.run_pipeline raising_env (some sample_initial_state) = Except.ok
      { sample_initial_state with
          current_stage := PipelineStage.failed,
          errors := sample_initial_state.errors ++
            ["Error in " ++ sample_initial_state.current_stage.value ++ ": " ++ "boom"] } ∧
    OrchestratorAgent.run_pipeline raising_env none =
      Except.error "Pipeline not initialized. Call create_pipeline first." :=
  ⟨((OrchestratorAgent.run_pipeline_terminal_or_raises raising_env).1
      sample_initial_state).2,
   (OrchestratorAgent.run_pipeline_terminal_or_raises raising_env).2.1
     sample_initial_state "boom" rfl rfl,
   (OrchestratorAgent.run_pipeline_terminal_or_raises raising_env).2.2⟩

/-- The complete concrete run for C1: create a pipeline for `sample_job`
with one candidate and run it to the end under `sample_env`. -/
def c1_run : Except String PipelineState :=
  (OrchestratorAgent.create_pipeline sample_job [sample_candidate]).bind
    (fun st => OrchestratorAgent.run_pipeline sample_env (some st))

/-- C1: the concrete pipeline run reaches `Completed` although the
bias-auditor agent was never invoked — the recorded agent responses are one
`JDAnalyzerAgent` response and one `ResumeParserAgent` response only, and
`bias_audit_results.audit_passed = true` was written by the mocked
bias-audit stage, not by any `BiasAuditorAgent` outcome. -/
theorem OrchestratorAgent.pipeline_completes_without_bias_auditor :
    c1_run.map (fun final =>
      (final.current_stage,
       final.agent_responses.map (fun r => r.agent_type),
       final.bias_audit_results.map (fun b => b.audit_passed))) =
    Except.ok (PipelineStage.completed,
      ["JDAnalyzerAgent", "ResumeParserAgent"], some true) := by
  with_unfolding_all rfl

/-- `_record_agent_response` never touches the candidate list. -/
theorem OrchestratorAgent.record_agent_response_candidates (st : PipelineState)
    (r : RecordedResponse) :
    (OrchestratorAgent.record_agent_response st r).candidates = st.candidates := by
  unfold OrchestratorAgent.record_agent_response PipelineState.add_agent_response
  split <;> rfl

/-- The per-candidate parsing loop never touches the candidate list. -/
theorem OrchestratorAgent.parse_candidates_fst_candidates
    (parser_run : ResumeParserInput → AgentResponse ParsedResume)
    (cs : List CandidateRecord) : ∀ st : PipelineState,
    ((OrchestratorAgent.parse_candidates parser_run cs st).1).candidates =
      st.candidates := by
  induction cs with
  | nil => intro st; rfl
  | cons c cs ih =>
      intro st
      simp only [OrchestratorAgent.parse_candidates]
      rw [ih]
      exact OrchestratorAgent.record_agent_response_candidates _ _

/-- The resumes the parsing loop collects are exactly the successful parses
in candidate order, independent of the threaded state. -/
theorem OrchestratorAgent.parse_candidates_snd
    (parser_run : ResumeParserInput → AgentResponse ParsedResume)
    (cs : List CandidateRecord) : ∀ st : PipelineState,
    (OrchestratorAgent.parse_candidates parser_run cs st).2 =
      OrchestratorAgent.successful_parses parser_run cs := by
  induction cs with
  | nil => intro st; rfl
  | cons c cs ih =>
      intro st
      simp only [OrchestratorAgent.parse_candidates]
      rw [ih]
      simp only [OrchestratorAgent.successful_parses, List.filterMap_cons]
      by_cases hstat : (parser_run (OrchestratorAgent.mk_resume_input c)).status =
          AgentStatus.success
      · cases hd : (parser_run (OrchestratorAgent.mk_resume_input c)).data <;>
          simp [hstat, hd]
      · simp [hstat]

/-- `successful_parses` distributes over list append. -/
theorem OrchestratorAgent.successful_parses_append
    (parser_run : ResumeParserInput → AgentResponse ParsedResume)
    (l₁ l₂ : List CandidateRecord) :
    OrchestratorAgent.successful_parses parser_run (l₁ ++ l₂) =
      OrchestratorAgent.successful_parses parser_run l₁ ++
      OrchestratorAgent.successful_parses parser_run l₂ := by
  unfold OrchestratorAgent.successful_parses
  rw [List.filterMap_append]

/-- At most one parsed resume per candidate. -/
theorem OrchestratorAgent.successful_parses_length_le
    (parser_run : ResumeParserInput → AgentResponse ParsedResume)
    (cs : List CandidateRecord) :
    (OrchestratorAgent.successful_parses parser_run cs).length ≤ cs.length :=
  List.length_filterMap_le _ _

/-- A candidate whose parse fails or yields no payload contributes no
parsed resume. -/
theorem OrchestratorAgent.successful_parses_singleton_none
    (parser_run : ResumeParserInput → AgentResponse ParsedResume)
    (c : CandidateRecord)
    (hfail : (parser_run (OrchestratorAgent.mk_resume_input c)).status ≠
        AgentStatus.success ∨
      (parser_run (OrchestratorAgent.mk_resume_input c)).data = none) :
    OrchestratorAgent.successful_parses parser_run [c] = [] := by
  unfold OrchestratorAgent.successful_parses
  simp only [List.filterMap_cons, List.filterMap_nil]
  rcases hfail with hf | hf
  · simp [hf]
  · by_cases hstat : (parser_run (OrchestratorAgent.mk_resume_input c)).status =
        AgentStatus.success
    · simp [hstat, hf]
    · simp [hstat]

/-- An element of an appended list taken at an index past the first part
belongs to the second part. -/
theorem get_append_right_mem {α : Type} (l₁ l₂ : List α) (i : Nat)
    (hge : l₁.length ≤ i) (hi : i < (l₁ ++ l₂).length) :
    (l₁ ++ l₂).get ⟨i, hi⟩ ∈ l₂ := by
  have h2 : i - l₁.length < l₂.length := by
    rw [List.length_append] at hi
    omega
  have heq : (l₁ ++ l₂).get ⟨i, hi⟩ = l₂.get ⟨i - l₁.length, h2⟩ := by
    rw [List.get_eq_getElem, List.get_eq_getElem]
    exact List.getElem_append_right hge
  rw [heq]
  exact List.get_mem _ _ _

/-- C10: the ResumeParsing stage handler always returns `Continue` (towards
`resume_parsing`), replaces the state's candidate list with its first `k`
entries zipped positionally with the `k` successful parses in order
(dropping the trailing records), and when the parse for candidate `i` fails
or yields no payload, the resume paired at position `i` (when one exists)
comes from a strictly later candidate. -/
theorem OrchestratorAgent.resume_parsing_zip_truncation
    (parser_run : ResumeParserInput → AgentResponse ParsedResume)
    (st : PipelineState) :
    (OrchestratorAgent.run_resume_parsing_with parser_run st).1.action =
      OrchestratorAction.CONTINUE ∧
    (OrchestratorAgent.run_resume_parsing_with parser_run st).1.next_stage =
      some PipelineStage.resume_parsing ∧
    (OrchestratorAgent.run_resume_parsing_with parser_run st).2.candidates =
      List.zipWith CandidateRecord.with_parsed st.candidates
        (OrchestratorAgent.successful_parses parser_run st.candidates) ∧
    ((OrchestratorAgent.run_resume_parsing_with parser_run st).2.candidates).length =
      (OrchestratorAgent.successful_parses parser_run st.candidates).length ∧
    (∀ (i : Nat)
       (hi : i < (OrchestratorAgent.successful_parses parser_run st.candidates).length)
       (hc : i < st.candidates.length),
       ((parser_run (OrchestratorAgent.mk_resume_input
           (st.candidates.get ⟨i, hc⟩))).status ≠ AgentStatus.success ∨
        (parser_run (OrchestratorAgent.mk_resume_input
           (st.candidates.get ⟨i, hc⟩))).data = none) →
       (OrchestratorAgent.successful_parses parser_run st.candidates).get ⟨i, hi⟩ ∈
         OrchestratorAgent.successful_parses parser_run
           (st.candidates.drop (i + 1))) := by
  refine ⟨rfl, rfl, ?_, ?_, ?_⟩
  · show List.zipWith CandidateRecord.with_parsed
        ((OrchestratorAgent.parse_candidates parser_run st.candidates st).1.candidates)
        ((OrchestratorAgent.parse_candidates parser_run st.candidates st).2) = _
    rw [OrchestratorAgent.parse_candidates_fst_candidates,
        OrchestratorAgent.parse_candidates_snd]
  · show (List.zipWith CandidateRecord.with_parsed
        ((OrchestratorAgent.parse_candidates parser_run st.candidates st).1.candidates)
        ((OrchestratorAgent.parse_candidates parser_run st.candidates st).2)).length = _
    rw [OrchestratorAgent.parse_candidates_fst_candidates,
        OrchestratorAgent.parse_candidates_snd, List.length_zipWith]
    exact Nat.min_eq_right
      (OrchestratorAgent.successful_parses_length_le parser_run st.candidates)
  · intro i hi hc hfail
    have hsplit : OrchestratorAgent.successful_parses parser_run st.candidates =
        OrchestratorAgent.successful_parses parser_run (st.candidates.take (i + 1)) ++
        OrchestratorAgent.successful_parses parser_run (st.candidates.drop (i + 1)) := by
      rw [← OrchestratorAgent.successful_parses_append, List.take_append_drop]
    have htake : st.candidates.take (i + 1) = st.candidates.take i ++
        [st.candidates.get ⟨i, hc⟩] := by
      rw [List.take_succ]
      congr 1
      rw [List.getElem?_eq_getElem hc]
      simp [List.get_eq_getElem]
    have hlen1 : (OrchestratorAgent.successful_parses parser_run
        (st.candidates.take (i + 1))).length ≤ i := by
      rw [htake, OrchestratorAgent.successful_parses_append, List.length_append,
        OrchestratorAgent.successful_parses_singleton_none parser_run _ hfail]
      have h1 := OrchestratorAgent.successful_parses_length_le parser_run
        (st.candidates.take i)
      have h2 : (st.candidates.take i).length ≤ i := by
        rw [List.length_take]
        omega
      simp only [List.length_nil]
      omega
    have hi2 : i < (OrchestratorAgent.successful_parses parser_run
        (st.candidates.take (i + 1)) ++
        OrchestratorAgent.successful_parses parser_run
          (st.candidates.drop (i + 1))).length := by
      rw [← hsplit]
      exact hi
    have hkey : (OrchestratorAgent.successful_parses parser_run st.candidates).get
        ⟨i, hi⟩ =
        (OrchestratorAgent.successful_parses parser_run (st.candidates.take (i + 1)) ++
         OrchestratorAgent.successful_parses parser_run
           (st.candidates.drop (i + 1))).get ⟨i, hi2⟩ :=
      List.get_of_eq hsplit ⟨i, hi⟩
    rw [hkey]
    exact get_append_right_mem _ _ _ hlen1 hi2

/-- A minimal candidate profile for the misalignment witness. -/
def c10_profile (i : String) : CandidateProfile :=
  { candidate_id := i
    anonymized_id := ""
    email_hash := ""
    resume_file_path := ""
    data_consent_given := true }

/-- A pipeline state at `JDAnalysis` with three candidates A, B, C. -/
def c10_state : PipelineState :=
  { audit_state_base with
      current_stage := PipelineStage.jd_analysis
      candidates := [(c10_profile "A").to_record, (c10_profile "B").to_record,
        (c10_profile "C").to_record] }

/-- A parser runner whose domain logic raises exactly for candidate B. -/
def c10_parser_run (input_data : ResumeParserInput) : AgentResponse ParsedResume :=
  BaseAgent.run "ResumeParserAgent" ResumeParserAgent.required_confidence_threshold
    (fun inp =>
      if inp.candidate_id = "B" then Except.error "unreadable resume"
      else ResumeParserAgent.process inp)
    input_data

/-- Witness for C10: with candidates A, B, C and a failing parse for B, the
stage continues, keeps 2 of the 3 candidate records, and pairs candidate B
(position 1) with a resume parsed from a later candidate (C). -/
theorem OrchestratorAgent.resume_parsing_zip_truncation_witness :
    (OrchestratorAgent.run_resume_parsing_with c10_parser_run c10_state).1.action =
      OrchestratorAction.CONTINUE ∧
    ((OrchestratorAgent.run_resume_parsing_with c10_parser_run
        c10_state).2.candidates).length =
      (OrchestratorAgent.successful_parses c10_parser_run c10_state.candidates).length ∧
    (OrchestratorAgent.successful_parses c10_parser_run c10_state.candidates).length =
      2 ∧
    (OrchestratorAgent.successful_parses c10_parser_run c10_state.candidates).get
        ⟨1, by with_unfolding_all decide⟩ ∈
      OrchestratorAgent.successful_parses c10_parser_run
        (c10_state.candidates.drop 2) := by
  have h := OrchestratorAgent.resume_parsing_zip_truncation c10_parser_run c10_state
  refine ⟨h.1, h.2.2.2.1, by with_unfolding_all decide, ?_⟩
  exact h.2.2.2.2 1 (by with_unfolding_all decide) (by with_unfolding_all decide)
    (Or.inl (by with_unfolding_all decide))
